import Mathlib

/-!
Verification of the workflow resolution and matching engine:
the fuzzy similarity scorer, the course auto-matcher, the assignment
classifier's automatability table, the assignment finder, the draft
store, and the workflow-session state machine.
-/

/-- Lowercase a string and keep only ASCII letters and digits, as a char list
(the normalization step of the similarity scorer). -/
def normalizeStr (s : String) : List Char :=
  (s.data.map Char.toLower).filter
    (fun c => decide (('a' ≤ c ∧ c ≤ 'z') ∨ ('0' ≤ c ∧ c ≤ '9')))

/-- Predicate `leadsList small big`: true when `small` is a leading segment of `big`. -/
def leadsList : List Char → List Char → Bool
  | [], _ => true
  | _ :: _, [] => false
  | a :: as, b :: bs => a = b && leadsList as bs

/-- Predicate `containsList big small`: true when `small` occurs contiguously inside
`big` (the JS `String.includes` on the char-list view). -/
def containsList (big small : List Char) : Bool :=
  (List.range (big.length + 1)).any (fun i => leadsList small (big.drop i))

/-- Classic unit-cost edit distance (insert / delete / substitute), the value
the DP matrix of the scorer computes at its final cell. -/
def lev : List Char → List Char → Nat
  | [], l2 => l2.length
  | a :: l1, [] => (a :: l1).length
  | a :: l1, b :: l2 =>
      min (min (lev l1 (b :: l2) + 1) (lev (a :: l1) l2 + 1))
          (lev l1 l2 + (if a = b then 0 else 1))
termination_by l1 l2 => l1.length + l2.length
decreasing_by all_goals simp_arith

/-- Core of the similarity scorer, on already-normalized char lists:
equality → 1; an empty side → 0; containment → 0.8; otherwise the
normalized edit-distance value. -/
def simList (l1 l2 : List Char) : ℚ :=
  if l1 = l2 then 1
  else if l1.length = 0 ∨ l2.length = 0 then 0
  else if containsList l1 l2 || containsList l2 l1 then 8 / 10
  else 1 - (lev l1 l2 : ℚ) / ((max l1.length l2.length : Nat) : ℚ)

/-- The similarity scorer `stringSimilarity`: normalize both inputs, then
compare as in `simList`. -/
def stringSimilarity (s1 s2 : String) : ℚ :=
  simList (normalizeStr s1) (normalizeStr s2)

/-- A course record on the LMS (Canvas) side. -/
structure CanvasCourse where
  id : Nat
  name : String
  course_code : String
  enrollment_term_id : Nat
  workflow_state : String
deriving Repr, DecidableEq

/-- A course record on the submission-service (Gradescope) side. -/
structure GradescopeCourse where
  id : String
  name : String
  shortName : String
  term : String
  role : String
deriving Repr, DecidableEq

/-- A stored association between a Canvas course and a Gradescope course. -/
structure CourseMapping where
  canvasCourseId : Nat
  canvasCourseName : String
  gradescopeCourseId : String
  gradescopeCourseName : String
  excluded : Bool
deriving Repr, DecidableEq

/-- One step of the inner loop of `autoMatchCourses`: skip targets already
used, score the candidate by the best of name-vs-name and code-vs-shortName
similarity, and keep it when it strictly improves the best score and clears
the 0.5 threshold. -/
def courseStep (c : CanvasCourse) (used : List String)
    (acc : Option GradescopeCourse × ℚ) (g : GradescopeCourse) :
    Option GradescopeCourse × ℚ :=
  if g.id ∈ used then acc
  else
    let score := max (stringSimilarity c.name g.name)
                     (stringSimilarity c.course_code g.shortName)
    if acc.2 < score ∧ 5 / 10 ≤ score then (some g, score) else acc

/-- The inner loop of `autoMatchCourses`: the best not-yet-used Gradescope
candidate for one Canvas course, with its score (`none` when no candidate
clears the threshold). -/
def bestCourseCandidate (c : CanvasCourse) (used : List String)
    (gcs : List GradescopeCourse) : Option GradescopeCourse × ℚ :=
  gcs.foldl (courseStep c used) (none, 0)

/-- The outer loop of `autoMatchCourses` over the Canvas courses, carrying the
set of already-used Gradescope ids. -/
def autoMatchGo (gcs : List GradescopeCourse) :
    List CanvasCourse → List String → List CourseMapping × List CanvasCourse
  | [], _ => ([], [])
  | c :: cs, used =>
    match (bestCourseCandidate c used gcs).1 with
    | some b =>
        let rest := autoMatchGo gcs cs (b.id :: used)
        ({ canvasCourseId := c.id, canvasCourseName := c.name,
           gradescopeCourseId := b.id, gradescopeCourseName := b.name,
           excluded := false } :: rest.1, rest.2)
    | none =>
        let rest := autoMatchGo gcs cs used
        (rest.1, c :: rest.2)

/-- The method `CourseMapper.autoMatchCourses`: greedily match each Canvas course to the
best unused Gradescope course, returning the matched mappings and the
unmatched Canvas courses. -/
def autoMatchCourses (canvasCourses : List CanvasCourse)
    (gradescopeCourses : List GradescopeCourse) :
    List CourseMapping × List CanvasCourse :=
  autoMatchGo gradescopeCourses canvasCourses []

/-- An assignment record on the LMS (Canvas) side. -/
structure CanvasAssignment where
  id : Nat
  name : String
  description : Option String
  due_at : Option String
  points_possible : ℚ
  submission_types : List String
  html_url : String
  has_submitted_submissions : Bool
deriving Repr, DecidableEq

/-- The classifier's assignment-type enumeration. -/
inductive AssignmentType where
  | essay | reflection | code | quiz | exam | presentation
  | group_project | discussion | lab | homework | attendance | unknown
deriving Repr, DecidableEq

/-- A hyperlink resource extracted from an assignment description. -/
structure ResourceLink where
  text : String
  url : String
deriving Repr, DecidableEq

/-- An optional min/max range, as used for word and page counts. -/
structure CountRange where
  min : Option Nat
  max : Option Nat
deriving Repr, DecidableEq

/-- Requirements extracted from an assignment description. -/
structure AssignmentRequirements where
  wordCount : Option CountRange
  pageCount : Option CountRange
  topics : List String
  citations : Bool
  citationStyle : Option String
  rubricItems : List String
  resources : List ResourceLink
  keyPhrases : List String
deriving Repr, DecidableEq

/-- Submission metadata carried through by the analyzer. -/
structure SubmissionInfo where
  types : List String
  dueDate : Option String
  pointsPossible : ℚ
  allowedFileTypes : Option (List String)
  isExternalTool : Bool
  externalToolName : Option String
deriving Repr, DecidableEq

/-- JS `a || b` on an optional string: the string when present and non-empty
(non-falsy), otherwise the default. -/
def jsOrElse (o : Option String) (d : String) : String :=
  match o with
  | some t => if t = "" then d else t
  | none => d

/-- The method `AssignmentAnalyzer.detectExternalTool`: keyword search in the lowercased
description, first of gradescope / piazza / prairielearn / zybooks wins. -/
def detectExternalTool (a : CanvasAssignment) : Option String :=
  let desc := (a.description.getD "").data.map Char.toLower
  if containsList desc "gradescope".data then some "Gradescope"
  else if containsList desc "piazza".data then some "Piazza"
  else if containsList desc "prairielearn".data then some "PrairieLearn"
  else if containsList desc "zybooks".data then some "zyBooks"
  else none

/-- The method `AssignmentAnalyzer.extractSubmissionInfo`: carry through submission tags,
due date and points, and detect an external tool when the `external_tool` tag
is present. -/
def extractSubmissionInfo (a : CanvasAssignment) : SubmissionInfo :=
  let types := a.submission_types
  let isExt := types.contains "external_tool"
  { types := types
    dueDate := a.due_at
    pointsPossible := a.points_possible
    allowedFileTypes := none
    isExternalTool := isExt
    externalToolName := if isExt then detectExternalTool a else none }

/-- The method `AssignmentAnalyzer.determineAutomatability`: the fixed decision table,
first matching rule winning, returning the automatable flag and the reason. -/
def determineAutomatability (type : AssignmentType) (submission : SubmissionInfo)
    (_requirements : AssignmentRequirements) : Bool × String :=
  if type = AssignmentType.quiz ∨ type = AssignmentType.exam then
    (false, "Quizzes and exams require real-time responses")
  else if type = AssignmentType.attendance then
    (false, "Attendance requires physical presence")
  else if type = AssignmentType.presentation then
    (false, "Presentations require human delivery")
  else if type = AssignmentType.group_project then
    (false, "Group projects require coordination with team members")
  else if type = AssignmentType.discussion then
    (false, "Discussions require interactive participation")
  else if "none" ∈ submission.types then
    (false, "No submission required")
  else if "on_paper" ∈ submission.types then
    (false, "Requires physical paper submission")
  else if submission.isExternalTool then
    if submission.externalToolName = some "Gradescope" then
      (true, "Can submit to Gradescope via API")
    else
      (false, "External tool (" ++ jsOrElse submission.externalToolName "unknown"
              ++ ") not supported")
  else if type = AssignmentType.essay ∨ type = AssignmentType.reflection then
    (true, "Written assignments can be generated")
  else if type = AssignmentType.code ∨ type = AssignmentType.homework
          ∨ type = AssignmentType.lab then
    (true, "Code/homework assignments can be completed")
  else if "online_upload" ∈ submission.types
          ∨ "online_text_entry" ∈ submission.types then
    (true, "Supports online submission")
  else
    (false, "Unknown submission requirements")

/-- Strip leading and trailing whitespace from a char list (JS `trim`). -/
def trimList (l : List Char) : List Char :=
  ((l.dropWhile Char.isWhitespace).reverse.dropWhile Char.isWhitespace).reverse

/-- Split a char list at whitespace characters (JS `split(/\s+/)` on an
already-trimmed string, once empty tokens are filtered out by the caller). -/
def splitWs : List Char → List Char → List (List Char)
  | [], cur => [cur.reverse]
  | c :: rest, cur =>
      if Char.isWhitespace c then cur.reverse :: splitWs rest []
      else splitWs rest (c :: cur)

/-- Decimal value of a digit string (JS `parseInt` on an all-digit string). -/
def digitsVal (l : List Char) : Nat :=
  l.foldl (fun a c => a * 10 + (c.toNat - '0'.toNat)) 0

/-- Match the regex tail `\s*#?(\d+)$`: optional whitespace, an optional
`#`, then one or more digits to the end; returns the parsed number. -/
def parseTailNum (l : List Char) : Option Nat :=
  let l1 := l.dropWhile Char.isWhitespace
  let l2 := match l1 with
            | '#' :: r => r
            | _ => l1
  if l2 ≠ [] ∧ l2.all Char.isDigit then some (digitsVal l2) else none

/-- The fixed-word alternatives of the assignment-query pattern, in the
order the regex alternation tries them. -/
def kwList : List (List Char) :=
  ["hw".data, "homework".data, "lab".data, "project".data,
   "assignment".data, "ps".data, "pset".data]

/-- Match the `problem\s*set` alternative at the front of the input,
returning the matched text and the rest. -/
def matchProblemSet (l : List Char) : Option (List Char × List Char) :=
  if leadsList "problem".data l then
    let rest := l.drop 7
    let sp := rest.takeWhile Char.isWhitespace
    let rest2 := rest.drop sp.length
    if leadsList "set".data rest2 then
      some ("problem".data ++ sp ++ "set".data, rest2.drop 3)
    else none
  else none

/-- Match the whole anchored pattern
`^(hw|homework|lab|project|assignment|ps|pset|problem\s*set)\s*#?(\d+)$`,
returning the matched keyword text and the number. -/
def matchKwNum (l : List Char) : Option (List Char × Nat) :=
  match kwList.findSome? (fun kw =>
      if leadsList kw l then
        match parseTailNum (l.drop kw.length) with
        | some n => some (kw, n)
        | none => none
      else none) with
  | some r => some r
  | none =>
      match matchProblemSet l with
      | some (kw, rest) =>
          match parseTailNum rest with
          | some n => some (kw, n)
          | none => none
      | none => none

/-- Result of `parseAssignmentQuery`: a parsed number, or a free-text name,
plus the search terms. -/
structure ParsedAssignmentQuery where
  assignmentNumber : Option Nat := none
  assignmentName : Option String := none
  searchTerms : List (List Char) := []
deriving Repr, DecidableEq

/-- The method `WorkflowOrchestrator.parseAssignmentQuery`: lowercase and trim the
query; recognize a keyword-plus-number pattern or a bare number (search
terms are the keyword and the decimal rendering of the number, empty
strings filtered out); otherwise treat the query as a free-text name with
whitespace-separated search terms of length greater than one. -/
def parseAssignmentQuery (query : String) : ParsedAssignmentQuery :=
  let normalized := trimList (query.data.map Char.toLower)
  match matchKwNum normalized with
  | some (kw, n) =>
      { assignmentNumber := some n
        searchTerms := [kw, (toString n).data].filter (fun t => t ≠ []) }
  | none =>
      if normalized ≠ [] ∧ normalized.all Char.isDigit then
        { assignmentNumber := some (digitsVal normalized)
          searchTerms :=
            [normalized, (toString (digitsVal normalized)).data].filter
              (fun t => t ≠ []) }
      else
        { assignmentName := some query
          searchTerms := (splitWs normalized []).filter (fun t => 1 < t.length) }

/-- JS regex word character (`\w`): ASCII letter, digit or underscore. -/
def isWordChar (c : Char) : Bool := c.isAlphanum || c = '_'

/-- Test of the regex `\b<n>\b` against a name: the decimal rendering of `n`
occurs with no word character immediately before or after. -/
def wordBoundaryNum (n : Nat) (name : List Char) : Bool :=
  let ns := (toString n).data
  (List.range (name.length + 1)).any (fun i =>
    leadsList ns (name.drop i)
    && (match (name.take i).getLast? with
        | none => true
        | some c => !isWordChar c)
    && (match (name.drop (i + ns.length)).head? with
        | none => true
        | some c => !isWordChar c))

/-- JS `String(n).padStart(2, '0')`: the decimal rendering of `n`, padded on
the left with zeros to at least two characters. -/
def padTwo (n : Nat) : List Char :=
  let s := (toString n).data
  if s.length < 2 then List.replicate (2 - s.length) '0' ++ s else s

/-- The recognized assignment-name leading words checked for the +20 bonus. -/
def assignmentKinds : List (List Char) :=
  ["hw".data, "homework".data, "lab".data, "project".data, "assignment".data]

/-- The per-assignment score of `findAssignment`: +60 for a word-boundary
number match, +50 when the name contains the zero-padded two-digit variant,
+25 per search-term substring hit in the lowercased name, +20 per recognized
leading word that is also a search term. -/
def scoreAssignment (parsed : ParsedAssignmentQuery) (a : CanvasAssignment) : Nat :=
  let nameRaw := a.name.data
  let nameLower := nameRaw.map Char.toLower
  let numScore :=
    match parsed.assignmentNumber with
    | some n =>
        (if wordBoundaryNum n nameRaw then 60 else 0)
        + (if containsList nameRaw (padTwo n) then 50 else 0)
    | none => 0
  let termScore :=
    25 * (parsed.searchTerms.filter (fun t => containsList nameLower t)).length
  let kindScore :=
    20 * (assignmentKinds.filter
           (fun p => leadsList p nameLower && parsed.searchTerms.contains p)).length
  numScore + termScore + kindScore

/-- The method `WorkflowOrchestrator.findAssignment`: score every assignment, keep the
strictly best one, and return it with confidence `min score 100` when the
best score reaches 25. -/
def findAssignment (assignments : List CanvasAssignment) (query : String) :
    Option (CanvasAssignment × Nat) :=
  let parsed := parseAssignmentQuery query
  let best := assignments.foldl
    (fun acc a =>
      let s := scoreAssignment parsed a
      if acc.2 < s then (some a, s) else acc)
    ((none : Option CanvasAssignment), 0)
  match best.1 with
  | some b => if 25 ≤ best.2 then some (b, min best.2 100) else none
  | none => none

/-- Solution output formats. -/
inductive SolutionFormat where
  | essay | code | short_answer | file_upload
deriving Repr, DecidableEq

/-- The string name of a solution format, as rendered into log data. -/
def SolutionFormat.str : SolutionFormat → String
  | .essay => "essay"
  | .code => "code"
  | .short_answer => "short_answer"
  | .file_upload => "file_upload"

/-- Draft lifecycle states. -/
inductive DraftStatus where
  | draft | ready_for_review | approved | submitted
deriving Repr, DecidableEq

/-- A staged candidate solution. Timestamps are modelled as abstract ticks. -/
structure Draft where
  id : String
  assignmentId : Nat
  courseId : Nat
  assignmentName : String
  content : String
  format : SolutionFormat
  createdAt : Nat
  updatedAt : Nat
  status : DraftStatus
  feedback : Option String
deriving Repr, DecidableEq

/-- The word count used in log data: whitespace-split tokens of positive
length (JS `content.split(/\s+/).filter(w => w.length > 0).length`). -/
def countWords (content : String) : Nat :=
  ((splitWs content.data []).filter (fun w => 0 < w.length)).length

/-- A resource reference inside a solution context. -/
structure ResourceContext where
  title : String
  url : String
  description : Option String
deriving Repr, DecidableEq

/-- The context prepared for solution generation. -/
structure SolutionContext where
  assignmentId : Nat
  courseId : Nat
  assignmentName : String
  type : AssignmentType
  instructions : String
  format : SolutionFormat
  constraints : List String
  topics : List String
  keyPoints : List String
  resources : List ResourceContext
  wordCount : Option CountRange
  citationStyle : Option String
  additionalRequirements : List String
deriving Repr, DecidableEq

/-- The analyzer's full output snapshot. -/
structure AnalyzedAssignment where
  id : Nat
  name : String
  courseId : Nat
  type : AssignmentType
  automatable : Bool
  automatableReason : String
  requirements : AssignmentRequirements
  submission : SubmissionInfo
  rawDescription : String
  cleanDescription : String
deriving Repr, DecidableEq

/-- An assignment record on the submission-service (Gradescope) side. -/
structure GradescopeAssignment where
  id : String
  name : String
  dueDate : String
  status : String
  score : String
deriving Repr, DecidableEq

/-- Workflow session states. -/
inductive SessionStatus where
  | in_progress | awaiting_review | approved | submitted | failed
deriving Repr, DecidableEq

/-- Workflow log action tags. -/
inductive WorkflowAction where
  | resolve_course | resolve_assignment | analyze_assignment
  | prepare_solution | generate_solution | save_draft | review_draft
  | approve_draft | submit_assignment | error
deriving Repr, DecidableEq

/-- One entry of a session's append-only audit log; the loosely-typed JS
`data` record is modelled as a list of key/value string pairs. -/
structure WorkflowLogEntry where
  timestamp : Nat
  action : WorkflowAction
  details : String
  data : Option (List (String × String))
  success : Bool
  error : Option String
deriving Repr, DecidableEq

/-- The central mutable aggregate of the orchestrator. -/
structure WorkflowSession where
  id : String
  startedAt : Nat
  completedAt : Option Nat
  status : SessionStatus
  originalRequest : String
  canvasCourse : Option CanvasCourse
  canvasAssignment : Option CanvasAssignment
  gradescopeCourse : Option GradescopeCourse
  gradescopeAssignment : Option GradescopeAssignment
  analysis : Option AnalyzedAssignment
  solutionContext : Option SolutionContext
  generatedPrompt : Option String
  draft : Option Draft
  submissionUrl : Option String
  logs : List WorkflowLogEntry
deriving Repr, DecidableEq

/-- The method `WorkflowOrchestrator.log`: append one entry to the session's log. -/
def logAppend (s : WorkflowSession) (e : WorkflowLogEntry) : WorkflowSession :=
  { s with logs := s.logs ++ [e] }

/-- The method `WorkflowOrchestrator.setDraft`: store the draft, set status
`awaiting_review`, and log a `save_draft` entry. -/
def setDraft (s : WorkflowSession) (draft : Draft) (now : Nat) : WorkflowSession :=
  logAppend { s with draft := some draft, status := SessionStatus.awaiting_review }
    { timestamp := now, action := WorkflowAction.save_draft
      details := "Draft saved: " ++ toString draft.content.length ++ " characters"
      data := some [("draftId", draft.id), ("format", draft.format.str),
                    ("wordCount", toString (countWords draft.content))]
      success := true, error := none }

/-- The method `WorkflowOrchestrator.approveDraft`: when a draft is present, set the
draft status and the session status to `approved` and log an
`approve_draft` entry; otherwise do nothing. -/
def approveDraft (s : WorkflowSession) (now : Nat) : WorkflowSession :=
  match s.draft with
  | some d =>
      logAppend { s with draft := some { d with status := DraftStatus.approved },
                         status := SessionStatus.approved }
        { timestamp := now, action := WorkflowAction.approve_draft
          details := "Draft approved for submission"
          data := some [("draftId", d.id)]
          success := true, error := none }
  | none => s

/-- The method `WorkflowOrchestrator.recordSubmission`: record the url, set status
`submitted`, stamp `completedAt`, mark the draft submitted when present, and
log a `submit_assignment` entry. -/
def recordSubmission (s : WorkflowSession) (url : String) (now : Nat) :
    WorkflowSession :=
  logAppend
    { s with submissionUrl := some url
             status := SessionStatus.submitted
             completedAt := some now
             draft := s.draft.map (fun d => { d with status := DraftStatus.submitted }) }
    { timestamp := now, action := WorkflowAction.submit_assignment
      details := "Submitted successfully"
      data := some [("url", url)]
      success := true, error := none }

/-- The method `WorkflowOrchestrator.recordError`: set status `failed` and log a failed
`error` entry. -/
def recordError (s : WorkflowSession) (error : String) (now : Nat) :
    WorkflowSession :=
  logAppend { s with status := SessionStatus.failed }
    { timestamp := now, action := WorkflowAction.error
      details := error, data := some []
      success := false, error := some error }

/-- The composite draft-store key: the decimal course id, a dash, the decimal assignment id. -/
def draftKey (courseId assignmentId : Nat) : String :=
  toString courseId ++ "-" ++ toString assignmentId

/-- Lookup in the draft store (JS `Map.get`). -/
def mapGet (m : List (String × Draft)) (k : String) : Option Draft :=
  match m with
  | [] => none
  | (k', v) :: rest => if k' = k then some v else mapGet rest k

/-- Insert or replace in the draft store (JS `Map.set`). -/
def mapSet (m : List (String × Draft)) (k : String) (v : Draft) :
    List (String × Draft) :=
  match m with
  | [] => [(k, v)]
  | (k', v') :: rest =>
      if k' = k then (k, v) :: rest else (k', v') :: mapSet rest k v

/-- The method `SolutionGenerator.saveDraft`: build a fresh draft record for the
`(course, assignment)` key, keeping the existing `createdAt` when a draft is
already stored, and store it; returns the new store and the draft. -/
def saveDraft (drafts : List (String × Draft)) (assignmentId courseId : Nat)
    (assignmentName content : String) (format : SolutionFormat) (now : Nat) :
    List (String × Draft) × Draft :=
  let id := draftKey courseId assignmentId
  let existing := mapGet drafts id
  let draft : Draft :=
    { id := id, assignmentId := assignmentId, courseId := courseId
      assignmentName := assignmentName, content := content, format := format
      createdAt := (existing.map (fun e => e.createdAt)).getD now
      updatedAt := now, status := DraftStatus.draft, feedback := none }
  (mapSet drafts id draft, draft)

/-- The method `SolutionGenerator.updateDraftContent`: when a draft is stored for the
key, replace its content, stamp `updatedAt`, and reset its status to
`draft`; otherwise leave the store unchanged and return `none`. -/
def updateDraftContent (drafts : List (String × Draft))
    (courseId assignmentId : Nat) (content : String) (now : Nat) :
    List (String × Draft) × Option Draft :=
  let id := draftKey courseId assignmentId
  match mapGet drafts id with
  | some d =>
      let d2 := { d with content := content, updatedAt := now,
                         status := DraftStatus.draft }
      (mapSet drafts id d2, some d2)
  | none => (drafts, none)

/-- Test fixture: the assignment of end-to-end scenario B. -/
def hw17 : CanvasAssignment :=
  { id := 1, name := "Homework 17", description := none, due_at := none,
    points_possible := 100, submission_types := [], html_url := "",
    has_submitted_submissions := false }

/-- Test fixture: requirements with nothing extracted. -/
def emptyRequirements : AssignmentRequirements :=
  { wordCount := none, pageCount := none, topics := [], citations := false,
    citationStyle := none, rubricItems := [], resources := [], keyPhrases := [] }

/-- Test fixture: an external-tool submission detected as Gradescope. -/
def subGradescope : SubmissionInfo :=
  { types := ["external_tool"], dueDate := none, pointsPossible := 10,
    allowedFileTypes := none, isExternalTool := true,
    externalToolName := some "Gradescope" }

/-- Test fixture: an external-tool submission detected as Piazza. -/
def subPiazza : SubmissionInfo :=
  { types := ["external_tool"], dueDate := none, pointsPossible := 10,
    allowedFileTypes := none, isExternalTool := true,
    externalToolName := some "Piazza" }

/-- Test fixture: an external-tool submission whose tags also carry `none`. -/
def subNoneTool : SubmissionInfo :=
  { types := ["external_tool", "none"], dueDate := none, pointsPossible := 10,
    allowedFileTypes := none, isExternalTool := true,
    externalToolName := some "Gradescope" }

/-- Test fixture: a quiz-typed submission with an `online_upload` tag. -/
def subUploadQuiz : SubmissionInfo :=
  { types := ["online_upload"], dueDate := none, pointsPossible := 10,
    allowedFileTypes := none, isExternalTool := false,
    externalToolName := none }

/-- Test fixture: a draft record. -/
def sampleDraft : Draft :=
  { id := "170-1", assignmentId := 1, courseId := 170,
    assignmentName := "Homework 17", content := "solution text",
    format := SolutionFormat.essay, createdAt := 1, updatedAt := 1,
    status := DraftStatus.draft, feedback := none }

/-- Test fixture: a minimal session with a given status and draft. -/
def mkSession (st : SessionStatus) (d : Option Draft) : WorkflowSession :=
  { id := "wf-1", startedAt := 0, completedAt := none, status := st,
    originalRequest := "hw 17 from cs 170", canvasCourse := none,
    canvasAssignment := none, gradescopeCourse := none,
    gradescopeAssignment := none, analysis := none, solutionContext := none,
    generatedPrompt := none, draft := d, submissionUrl := none, logs := [] }

/-- Test fixture: the store holding one saved draft. -/
def savedOnce : List (String × Draft) × Draft :=
  saveDraft [] 1 170 "Homework 17" "first version" SolutionFormat.essay 1

theorem lev_comm (l1 l2 : List Char) : lev l1 l2 = lev l2 l1 := by
  induction l1 generalizing l2 with
  | nil => cases l2 <;> simp [lev]
  | cons a l1 ih =>
    induction l2 with
    | nil => simp [lev]
    | cons b l2 ih2 =>
      simp only [lev]
      rw [ih (b :: l2), ih2, ih l2]
      have hab : (if a = b then 0 else 1) = (if b = a then 0 else 1) := by
        by_cases h : a = b
        · simp [h]
        · have h2 : ¬ b = a := fun e => h (Eq.symm e)
          simp [h, h2]
      rw [hab, Nat.min_comm (lev (b :: l2) l1 + 1) (lev l2 (a :: l1) + 1)]

theorem simList_comm (l1 l2 : List Char) : simList l1 l2 = simList l2 l1 := by
  unfold simList
  by_cases h : l1 = l2
  · subst h; rfl
  · have h' : ¬ l2 = l1 := fun e => h e.symm
    rw [if_neg h, if_neg h']
    by_cases hz : l1.length = 0 ∨ l2.length = 0
    · rw [if_pos hz, if_pos (Or.symm hz)]
    · rw [if_neg hz, if_neg (fun e => hz (Or.symm e))]
      rw [Bool.or_comm (containsList l1 l2) (containsList l2 l1)]
      by_cases hc : (containsList l2 l1 || containsList l1 l2) = true
      · rw [if_pos hc, if_pos hc]
      · rw [if_neg hc, if_neg hc, lev_comm, Nat.max_comm]

/-- Claim C2 (amended): self-similarity is 1 for every string (empty
included); similarity of the empty string against any string with a
non-empty normalized form is 0; similarity is symmetric. -/
theorem similarity_props :
    (∀ x : String, stringSimilarity x x = 1) ∧
    (∀ x : String, normalizeStr x ≠ [] → stringSimilarity "" x = 0) ∧
    (∀ a b : String, stringSimilarity a b = stringSimilarity b a) := by
  refine ⟨?_, ?_, ?_⟩
  · intro x
    unfold stringSimilarity simList
    rw [if_pos rfl]
  · intro x h
    unfold stringSimilarity
    have h0 : normalizeStr "" = [] := rfl
    rw [h0]
    unfold simList
    rw [if_neg (fun e => h e.symm),
        if_pos (show ([] : List Char).length = 0 ∨ (normalizeStr x).length = 0
                from Or.inl rfl)]
  · intro a b
    exact simList_comm _ _

/-- Claim C2, witness for the amended theorem at concrete inputs. -/
theorem similarity_props_witness :
    stringSimilarity "hw" "hw" = 1 ∧ normalizeStr "hw 17" ≠ [] ∧
    stringSimilarity "" "hw 17" = 0 ∧
    stringSimilarity "cs" "math" = stringSimilarity "math" "cs" :=
  ⟨similarity_props.1 "hw", by decide,
   similarity_props.2.1 "hw 17" (by decide),
   similarity_props.2.2 "cs" "math"⟩

/-- Claim C2, counterexample to the claim as stated: the similarity of the
empty string with itself is 1, not 0, because the normalized-equality check
precedes the empty check. -/
theorem similarity_empty_empty_is_one :
    stringSimilarity "" "" = 1 ∧ (1 : ℚ) ≠ 0 :=
  ⟨rfl, one_ne_zero⟩

/-- Claim C7: when both normalized forms are non-empty, distinct, and one
contains the other, the scorer returns exactly 8/10 (that is 0.8), never
reaching the edit-distance computation. -/
theorem containment_short_circuit (a b : String)
    (h1 : normalizeStr a ≠ []) (h2 : normalizeStr b ≠ [])
    (hne : normalizeStr a ≠ normalizeStr b)
    (hsub : containsList (normalizeStr a) (normalizeStr b) = true
          ∨ containsList (normalizeStr b) (normalizeStr a) = true) :
    stringSimilarity a b = 8 / 10 := by
  unfold stringSimilarity simList
  rw [if_neg hne]
  rw [if_neg ?hlen]
  case hlen =>
    rintro (h | h)
    · exact h1 (List.length_eq_zero.mp h)
    · exact h2 (List.length_eq_zero.mp h)
  rw [if_pos ?hc]
  case hc => rcases hsub with h | h <;> simp [h]

/-- Claim C7, witness: the spec's own example
`similarity("CS170", "cs 170 intro")` evaluates to exactly 8/10. -/
theorem containment_short_circuit_witness :
    stringSimilarity "CS170" "cs 170 intro" = 8 / 10 :=
  containment_short_circuit "CS170" "cs 170 intro"
    (by decide) (by decide) (by decide) (Or.inr (by decide))

/-- Claim C3 (amended): on scenario B the assignment "Homework 17" is
resolved, but with confidence 100: the word-boundary match contributes 60,
the zero-padded variant containment adds 50, and the search-term hit "17"
adds 25, so the score is 135, capped at 100. -/
theorem scenario_b_resolution :
    (parseAssignmentQuery "hw 17").assignmentNumber = some 17 ∧
    scoreAssignment (parseAssignmentQuery "hw 17") hw17 = 60 + 50 + 25 ∧
    findAssignment [hw17] "hw 17" = some (hw17, 100) :=
  ⟨rfl, rfl, rfl⟩

/-- Claim C3, counterexample to the stated confidence: scenario B yields
confidence 100, not 60. -/
theorem scenario_b_confidence_not_sixty :
    findAssignment [hw17] "hw 17" = some (hw17, 100) ∧ (100 : Nat) ≠ 60 :=
  ⟨rfl, by decide⟩

/-- Claim C1 (amended): the orchestrator operations set the session status
unconditionally, with no terminal-state guard: `setDraft` always yields
`awaiting_review`, `recordSubmission` always `submitted`, `recordError`
always `failed` (terminal states included), and `approveDraft` always
`approved` when a draft is present. -/
theorem status_set_unconditionally (s : WorkflowSession) (d : Draft)
    (url e : String) (t : Nat) :
    (setDraft s d t).status = SessionStatus.awaiting_review ∧
    (recordSubmission s url t).status = SessionStatus.submitted ∧
    (recordError s e t).status = SessionStatus.failed ∧
    (approveDraft { s with draft := some d } t).status = SessionStatus.approved :=
  ⟨rfl, rfl, rfl, rfl⟩

/-- Claim C1, counterexample: a session in the terminal state `submitted`
has its status changed by `setDraft` (to `awaiting_review`) and by
`recordError` (to `failed`), so `submitted` is not terminal in the code. -/
theorem submitted_not_terminal :
    (mkSession SessionStatus.submitted none).status = SessionStatus.submitted ∧
    (setDraft (mkSession SessionStatus.submitted none) sampleDraft 5).status
      ≠ SessionStatus.submitted ∧
    (recordError (mkSession SessionStatus.submitted none) "late" 6).status
      ≠ SessionStatus.submitted := by
  refine ⟨rfl, ?_, ?_⟩ <;> decide

/-- Claim C9: `approveDraft` on a session without a draft leaves the status
unchanged; `recordSubmission` sets status `submitted`, stamps `completedAt`
with the submission time, and marks the draft submitted when one exists. -/
theorem approve_and_record (s : WorkflowSession) (t : Nat) (url : String) :
    (s.draft = none → (approveDraft s t).status = s.status) ∧
    (recordSubmission s url t).status = SessionStatus.submitted ∧
    (recordSubmission s url t).completedAt = some t ∧
    (∀ d, s.draft = some d →
      (recordSubmission s url t).draft
        = some { d with status := DraftStatus.submitted }) := by
  refine ⟨?_, rfl, rfl, ?_⟩
  · intro h
    unfold approveDraft
    rw [h]
  · intro d hd
    unfold recordSubmission logAppend
    simp [hd]

/-- Claim C9, witness at a concrete session with and without a draft. -/
theorem approve_and_record_witness :
    (mkSession SessionStatus.in_progress none).draft = none ∧
    (approveDraft (mkSession SessionStatus.in_progress none) 3).status
      = (mkSession SessionStatus.in_progress none).status ∧
    (mkSession SessionStatus.approved (some sampleDraft)).draft = some sampleDraft ∧
    (recordSubmission (mkSession SessionStatus.approved (some sampleDraft)) "https://x" 4).status
      = SessionStatus.submitted ∧
    (recordSubmission (mkSession SessionStatus.approved (some sampleDraft)) "https://x" 4).completedAt
      = some 4 ∧
    (recordSubmission (mkSession SessionStatus.approved (some sampleDraft)) "https://x" 4).draft
      = some { sampleDraft with status := DraftStatus.submitted } :=
  ⟨rfl,
   (approve_and_record (mkSession SessionStatus.in_progress none) 3 "https://x").1 rfl,
   rfl,
   (approve_and_record (mkSession SessionStatus.approved (some sampleDraft)) 4 "https://x").2.1,
   (approve_and_record (mkSession SessionStatus.approved (some sampleDraft)) 4 "https://x").2.2.1,
   (approve_and_record (mkSession SessionStatus.approved (some sampleDraft)) 4 "https://x").2.2.2
     sampleDraft rfl⟩

/-- Claim C10: `approveDraft` on a session without a draft is the identity
on the whole session, so in particular no log entry records the attempt. -/
theorem approveDraft_no_draft_frame (s : WorkflowSession) (t : Nat)
    (h : s.draft = none) :
    approveDraft s t = s ∧ (approveDraft s t).logs = s.logs := by
  have h1 : approveDraft s t = s := by
    unfold approveDraft
    rw [h]
  exact ⟨h1, by rw [h1]⟩

/-- Claim C10, witness at a concrete draft-free session. -/
theorem approveDraft_no_draft_frame_witness :
    (mkSession SessionStatus.awaiting_review none).draft = none ∧
    approveDraft (mkSession SessionStatus.awaiting_review none) 7
      = mkSession SessionStatus.awaiting_review none :=
  ⟨rfl, (approveDraft_no_draft_frame (mkSession SessionStatus.awaiting_review none) 7 rfl).1⟩

theorem mapGet_mapSet_self (m : List (String × Draft)) (k : String) (v : Draft) :
    mapGet (mapSet m k v) k = some v := by
  induction m with
  | nil => simp [mapSet, mapGet]
  | cons p rest ih =>
    obtain ⟨k', v'⟩ := p
    by_cases h : k' = k
    · simp [mapSet, mapGet, h]
    · simp [mapSet, mapGet, h, ih]

/-- Claim C8: a second `saveDraft` for the same (course, assignment) pair
overwrites in place, preserving the first draft's `createdAt` while taking
the new content, the new `updatedAt`, and status `draft`; and
`updateDraftContent` on a stored draft replaces content, stamps `updatedAt`,
and resets status to `draft`. -/
theorem draft_overwrite_semantics (store : List (String × Draft))
    (aid cid : Nat) (n1 c1 n2 c2 : String) (f1 f2 : SolutionFormat)
    (t1 t2 : Nat) (c3 : String) (t3 : Nat) :
    ((saveDraft (saveDraft store aid cid n1 c1 f1 t1).1 aid cid n2 c2 f2 t2).2.createdAt
        = (saveDraft store aid cid n1 c1 f1 t1).2.createdAt ∧
     (saveDraft (saveDraft store aid cid n1 c1 f1 t1).1 aid cid n2 c2 f2 t2).2.content = c2 ∧
     (saveDraft (saveDraft store aid cid n1 c1 f1 t1).1 aid cid n2 c2 f2 t2).2.updatedAt = t2 ∧
     (saveDraft (saveDraft store aid cid n1 c1 f1 t1).1 aid cid n2 c2 f2 t2).2.status
        = DraftStatus.draft) ∧
    (∀ d, mapGet store (draftKey cid aid) = some d →
      updateDraftContent store cid aid c3 t3
        = (mapSet store (draftKey cid aid)
             { d with content := c3, updatedAt := t3, status := DraftStatus.draft },
           some { d with content := c3, updatedAt := t3, status := DraftStatus.draft })) := by
  constructor
  · refine ⟨?_, rfl, rfl, rfl⟩
    show ((mapGet (saveDraft store aid cid n1 c1 f1 t1).1 (draftKey cid aid)).map
            (fun e => e.createdAt)).getD t2 = _
    have hkey : mapGet (saveDraft store aid cid n1 c1 f1 t1).1 (draftKey cid aid)
        = some (saveDraft store aid cid n1 c1 f1 t1).2 :=
      mapGet_mapSet_self _ _ _
    rw [hkey]
    rfl
  · intro d hd
    simp only [updateDraftContent, hd]

/-- Claim C8, witness at a concrete store holding one saved draft. -/
theorem draft_overwrite_semantics_witness :
    (saveDraft savedOnce.1 1 170 "Homework 17" "second version" SolutionFormat.essay 5).2.createdAt
      = savedOnce.2.createdAt ∧
    mapGet savedOnce.1 (draftKey 170 1) = some savedOnce.2 ∧
    updateDraftContent savedOnce.1 170 1 "third version" 9
      = (mapSet savedOnce.1 (draftKey 170 1)
           { savedOnce.2 with content := "third version", updatedAt := 9,
                              status := DraftStatus.draft },
         some { savedOnce.2 with content := "third version", updatedAt := 9,
                                 status := DraftStatus.draft }) :=
  ⟨(draft_overwrite_semantics [] 1 170 "Homework 17" "first version"
      "Homework 17" "second version" SolutionFormat.essay SolutionFormat.essay
      1 5 "third version" 9).1.1,
   rfl,
   (draft_overwrite_semantics savedOnce.1 1 170 "Homework 17" "first version"
      "Homework 17" "second version" SolutionFormat.essay SolutionFormat.essay
      1 5 "third version" 9).2 savedOnce.2 rfl⟩

theorem courseStep_not_used (c : CanvasCourse) (used : List String)
    (acc : Option GradescopeCourse × ℚ) (g : GradescopeCourse)
    (hacc : ∀ h, acc.1 = some h → h.id ∉ used) :
    ∀ h, (courseStep c used acc g).1 = some h → h.id ∉ used := by
  intro h hh
  simp only [courseStep] at hh
  split at hh
  · exact hacc h hh
  · split at hh
    · simp only [Prod.fst] at hh
      cases hh
      assumption
    · exact hacc h hh

theorem bestCourseCandidate_not_used (c : CanvasCourse) (used : List String)
    (gcs : List GradescopeCourse) :
    ∀ h, (bestCourseCandidate c used gcs).1 = some h → h.id ∉ used := by
  have key : ∀ (l : List GradescopeCourse) (acc : Option GradescopeCourse × ℚ),
      (∀ h, acc.1 = some h → h.id ∉ used) →
      ∀ h, (l.foldl (courseStep c used) acc).1 = some h → h.id ∉ used := by
    intro l
    induction l with
    | nil => intro acc hacc; exact hacc
    | cons g l ih =>
        intro acc hacc
        exact ih _ (courseStep_not_used c used acc g hacc)
  refine key gcs (none, 0) ?_
  intro h hh
  simp at hh

theorem autoMatchGo_nodup (gcs : List GradescopeCourse) :
    ∀ (cs : List CanvasCourse) (used : List String),
      ((autoMatchGo gcs cs used).1.map (fun m => m.gradescopeCourseId)).Nodup ∧
      ∀ x ∈ (autoMatchGo gcs cs used).1.map (fun m => m.gradescopeCourseId),
        x ∉ used := by
  intro cs
  induction cs with
  | nil =>
      intro used
      simp [autoMatchGo]
  | cons c cs ih =>
      intro used
      cases hb : (bestCourseCandidate c used gcs).1 with
      | none =>
          have hgo : autoMatchGo gcs (c :: cs) used
              = ((autoMatchGo gcs cs used).1, c :: (autoMatchGo gcs cs used).2) := by
            simp [autoMatchGo, hb]
          rw [hgo]
          exact ih used
      | some b =>
          have hbu : b.id ∉ used := bestCourseCandidate_not_used c used gcs b hb
          obtain ⟨hnd, hnin⟩ := ih (b.id :: used)
          have hgo : (autoMatchGo gcs (c :: cs) used).1
              = { canvasCourseId := c.id, canvasCourseName := c.name,
                  gradescopeCourseId := b.id, gradescopeCourseName := b.name,
                  excluded := false } :: (autoMatchGo gcs cs (b.id :: used)).1 := by
            simp [autoMatchGo, hb]
          rw [hgo]
          constructor
          · simp only [List.map_cons, List.nodup_cons]
            refine ⟨fun hx => ?_, hnd⟩
            exact hnin _ hx (List.mem_cons_self _ _)
          · intro x hx
            simp only [List.map_cons, List.mem_cons] at hx
            rcases hx with rfl | hx
            · exact hbu
            · intro hxu
              exact hnin x hx (List.mem_cons_of_mem _ hxu)

/-- Claim C4: the matched list returned by `autoMatchCourses` never contains
two mappings with the same Gradescope course id. -/
theorem autoMatch_target_ids_nodup (canvasCourses : List CanvasCourse)
    (gradescopeCourses : List GradescopeCourse) :
    (((autoMatchCourses canvasCourses gradescopeCourses).1.map
        (fun m => m.gradescopeCourseId)).Nodup) :=
  (autoMatchGo_nodup gradescopeCourses canvasCourses []).1

/-- Claim C5: assignments typed `quiz` or `exam` are never automatable,
whatever the submission metadata (in particular with an `online_upload`
tag): the type rule is first in the decision table. -/
theorem quiz_exam_not_automatable (sub : SubmissionInfo)
    (req : AssignmentRequirements) :
    determineAutomatability AssignmentType.quiz sub req
      = (false, "Quizzes and exams require real-time responses") ∧
    determineAutomatability AssignmentType.exam sub req
      = (false, "Quizzes and exams require real-time responses") :=
  ⟨rfl, rfl⟩

/-- Claim C6 (amended): for a type past the five type rules, with no `none`
or `on_paper` submission tag, an external-tool submission is automatable
exactly when the detected tool is Gradescope; any other detected platform
yields not-automatable with a reason naming that platform. -/
theorem external_tool_rule (type : AssignmentType) (sub : SubmissionInfo)
    (req : AssignmentRequirements)
    (hq : type ≠ AssignmentType.quiz) (he : type ≠ AssignmentType.exam)
    (hat : type ≠ AssignmentType.attendance)
    (hpr : type ≠ AssignmentType.presentation)
    (hgp : type ≠ AssignmentType.group_project)
    (hdi : type ≠ AssignmentType.discussion)
    (hext : sub.isExternalTool = true)
    (hnone : "none" ∉ sub.types) (hpaper : "on_paper" ∉ sub.types) :
    (sub.externalToolName = some "Gradescope" →
      determineAutomatability type sub req
        = (true, "Can submit to Gradescope via API")) ∧
    (∀ t, sub.externalToolName = some t →
      t ∈ ["Piazza", "PrairieLearn", "zyBooks"] →
      determineAutomatability type sub req
        = (false, "External tool (" ++ t ++ ") not supported")) := by
  have hqe : ¬(type = AssignmentType.quiz ∨ type = AssignmentType.exam) := by
    rintro (h | h)
    · exact hq h
    · exact he h
  unfold determineAutomatability
  rw [if_neg hqe, if_neg hat, if_neg hpr, if_neg hgp, if_neg hdi,
      if_neg hnone, if_neg hpaper, if_pos hext]
  constructor
  · intro hg
    rw [if_pos hg]
  · intro t ht hmem
    simp only [List.mem_cons, List.not_mem_nil, or_false] at hmem
    have hne : ¬ sub.externalToolName = some "Gradescope" := by
      rw [ht]
      intro hcontra
      injection hcontra with h1
      rcases hmem with rfl | rfl | rfl <;> simp at h1
    rw [if_neg hne, ht]
    have hj : jsOrElse (some t) "unknown" = t := by
      rcases hmem with rfl | rfl | rfl <;> rfl
    rw [hj]

/-- Claim C6, witness at concrete Gradescope and Piazza submissions. -/
theorem external_tool_rule_witness :
    determineAutomatability AssignmentType.homework subGradescope emptyRequirements
      = (true, "Can submit to Gradescope via API") ∧
    determineAutomatability AssignmentType.homework subPiazza emptyRequirements
      = (false, "External tool (Piazza) not supported") :=
  ⟨(external_tool_rule AssignmentType.homework subGradescope emptyRequirements
      (by decide) (by decide) (by decide) (by decide) (by decide) (by decide)
      rfl (by decide) (by decide)).1 rfl,
   (external_tool_rule AssignmentType.homework subPiazza emptyRequirements
      (by decide) (by decide) (by decide) (by decide) (by decide) (by decide)
      rfl (by decide) (by decide)).2 "Piazza" rfl (by decide)⟩

/-- Claim C6, counterexample to the claim as stated: a submission carrying
both the `external_tool` and the `none` tag, detected as Gradescope, on a
type past the five type rules, is reported not automatable — the `none`
tag rule fires before the external-tool rule. -/
theorem external_tool_none_tag :
    subNoneTool.isExternalTool = true ∧
    subNoneTool.externalToolName = some "Gradescope" ∧
    AssignmentType.homework ≠ AssignmentType.quiz ∧
    AssignmentType.homework ≠ AssignmentType.exam ∧
    determineAutomatability AssignmentType.homework subNoneTool emptyRequirements
      = (false, "No submission required") := by
  refine ⟨rfl, rfl, by decide, by decide, rfl⟩
